import Mathlib

/-!
Verification development for the yeogida backend (a Django-Ninja REST
service).  The definitions below are a shallow embedding of the source:

* `src/users/models.py` — the `CustomUser` model and its manager's
  `create_user`;
* `src/users/api.py` — the profile-parsing and find-or-create/update
  ("reconciliation") logic of `kakao_login_process`;
* `src/carpools/api.py` — `list_carpools`, `like_carpool`, `unlike_carpool`;
* `src/reviews/api.py` — `list_reviews`, `retrieve_review`, `like_review`,
  `unlike_review`;
* `src/rankings/api.py` — `get_rankings`;
* a session-token issuer modelled from the spec (the issue/refresh logic
  lives in the third-party ninja-jwt library, not in this repository).

Conventions: Python `None`/absent dict keys become `Option.none`; Python
truthiness of an optional string (`if email:`) is `truthy` below (absent or
empty is falsy); Django datetimes are embedded as `Nat` timestamps (only
their ordering matters here); the relational store is a `List` of records
and `save()` replaces the matching row.

Note on model revisions: `kakao_login_process` looks accounts up with the
keyword `kakao_id` and passes `kakao_id=`/`username=` to `create_user`,
while the `CustomUser` model revision in `src/users/models.py` stores the
external Kakao id as the primary key `id` (its `USERNAME_FIELD`) and its
`create_user(id, nickname, ...)` takes the id positionally.  Following the
model (and the spec's data model, which calls these draft iterations of the
same field), the embedding uses one field `id` for the external identity
key: the api's `kakao_id` lookup and create argument both denote it, and
the dropped `username` kwarg has no counterpart in the model.
-/

/-- Python truthiness of an optional string: `None` and `""` are falsy. -/
def truthy : Option String → Bool
  | none => false
  | some s => !(s == "")

/-- The `CustomUser` row (src/users/models.py, class CustomUser), restricted
to the columns the login flow reads or writes.  `id` is the primary key,
sourced from the external provider's numeric user id stored as a string;
`nickname` is non-null; `email` and `profile_image_url` are nullable;
`is_active` defaults to true.  (The remaining columns — `name`, `level`,
`review_count`, `like_count`, `badge`, `is_staff` — are never touched by
this flow.) -/
structure Account where
  id : String
  nickname : String
  email : Option String
  profile_image_url : Option String
  is_active : Bool
  deriving Repr, DecidableEq

/-- The `profile` sub-object of a Kakao `kakao_account` payload. -/
structure KakaoProfileData where
  nickname : Option String
  profile_image_url : Option String
  deriving Repr, DecidableEq

/-- The `kakao_account` object of the provider's user-info payload.  Every
field is optional, mirroring `dict.get`: an absent key is `none`. -/
structure KakaoAccount where
  has_email : Option Bool
  email_needs_agreement : Option Bool
  email : Option String
  profile_needs_agreement : Option Bool
  profile : KakaoProfileData
  deriving Repr, DecidableEq

/-- An empty `kakao_account`, the default `{}` of
`user_info.get("kakao_account", {})`. -/
def KakaoAccount.empty : KakaoAccount :=
  { has_email := none, email_needs_agreement := none, email := none,
    profile_needs_agreement := none,
    profile := { nickname := none, profile_image_url := none } }

/-- The provider's user-info payload: the numeric user id plus the
`kakao_account` object (absent ↦ `KakaoAccount.empty`). -/
structure UserInfo where
  id : Int
  kakao_account : KakaoAccount
  deriving Repr, DecidableEq

/-- The normalized external profile extracted by `kakao_login_process`
(src/users/api.py lines 123–141). -/
structure ExternalProfile where
  externalId : String
  email : Option String
  nickname : Option String
  profile_image_url : Option String
  deriving Repr, DecidableEq

/-- Profile parsing, src/users/api.py lines 123–141.  `kakao_id` is
`str(user_info.get("id"))`; email is taken only when `has_email` is truthy
and `email_needs_agreement` (default `True`) is false; nickname and profile
image are taken only when `profile_needs_agreement` (default `True`) is
false.  A consent flag that is absent therefore counts as not granted. -/
def parseProfile (u : UserInfo) : ExternalProfile :=
  let kakao_id := toString u.id
  let acc := u.kakao_account
  let email :=
    if acc.has_email == some true && acc.email_needs_agreement.getD true == false then
      acc.email
    else none
  let profileConsent := acc.profile_needs_agreement.getD true == false
  let nickname := if profileConsent then acc.profile.nickname else none
  let profile_image_url := if profileConsent then acc.profile.profile_image_url else none
  { externalId := kakao_id, email := email, nickname := nickname,
    profile_image_url := profile_image_url }

/-- The account table; `CustomUser.objects`. -/
abbrev AccountStore := List Account

/-- `CustomUser.objects.get(kakao_id=kakao_id)` — lookup by the external
identity key (the model's primary key `id`); `none` is `DoesNotExist`. -/
def findAccount (store : AccountStore) (kid : String) : Option Account :=
  store.find? (fun a => a.id == kid)

/-- `CustomUser.objects.filter(email=email).exists()` (src/users/api.py
line 185). -/
def emailTaken (store : AccountStore) (email : Option String) : Bool :=
  store.any (fun a => a.email == email)

/-- The first guarded update of the existing-user branch
(src/users/api.py lines 148–153): overwrite the email when the parsed
external value is truthy and differs from the stored one. -/
def upd_email (user : Account) (p : ExternalProfile) : Account × List String :=
  if truthy p.email && !(user.email == p.email) then
    ({ user with email := p.email }, ["email"])
  else (user, [])

/-- Lines 155–159: overwrite the nickname with the Kakao nickname when one
was supplied and differs. -/
def upd_nickname (s : Account × List String) (p : ExternalProfile) : Account × List String :=
  if truthy p.nickname && !(some s.1.nickname == p.nickname) then
    ({ s.1 with nickname := p.nickname.getD s.1.nickname }, s.2 ++ ["nickname"])
  else s

/-- Lines 161–163: overwrite the profile image url when one was supplied
and differs. -/
def upd_image (s : Account × List String) (p : ExternalProfile) : Account × List String :=
  if truthy p.profile_image_url && !(s.1.profile_image_url == p.profile_image_url) then
    ({ s.1 with profile_image_url := p.profile_image_url }, s.2 ++ ["profile_image_url"])
  else s

/-- Lines 165–167: reactivate an inactive account. -/
def upd_active (s : Account × List String) : Account × List String :=
  if !s.1.is_active then
    ({ s.1 with is_active := true }, s.2 ++ ["is_active"])
  else s

/-- The existing-user update branch, src/users/api.py lines 146–167: the
four guarded updates above run in sequence on `(user, fields_to_update)`;
`user.save(update_fields=fields_to_update)` then runs only when
`fields_to_update` is non-empty. -/
def reconcileExisting (user : Account) (p : ExternalProfile) : Account × List String :=
  upd_active (upd_image (upd_nickname (upd_email user p) p) p)

/-- Failures of the reconciliation flow, as typed by the spec's taxonomy.
`idRequired` and `nicknameRequired` are the two `ValueError`s raised by
`CustomUserManager.create_user`; `duplicateEmail` is the 400 of
src/users/api.py line 186; `accountDisabled` the 403 of line 206. -/
inductive ReconcileError where
  | duplicateEmail
  | idRequired
  | nicknameRequired
  | accountDisabled
  deriving Repr, DecidableEq

/-- `CustomUserManager.create_user` (src/users/models.py lines 11–21):
rejects a falsy id or nickname with a `ValueError`, otherwise builds and
saves the row (`is_active` takes the model default `true`). -/
def create_user (id : String) (nickname : Option String)
    (email : Option String) (profile_image_url : Option String) :
    Except ReconcileError Account :=
  if id == "" then
    .error .idRequired
  else
    match nickname with
    | none => .error .nicknameRequired
    | some n =>
      if n == "" then .error .nicknameRequired
      else
        .ok { id := id, nickname := n, email := email,
              profile_image_url := profile_image_url, is_active := true }

/-- Successful outcome of reconciliation: the store after the call, the
resolved account, whether any row was written, and whether it was newly
created. -/
structure ReconcileOk where
  store : AccountStore
  account : Account
  wrote : Bool
  created : Bool
  deriving Repr, DecidableEq

/-- `user.save(update_fields=...)` on an existing row: replace the row with
the matching primary key. -/
def saveAccount (store : AccountStore) (u : Account) : AccountStore :=
  store.map (fun a => if a.id == u.id then u else a)

/-- The user identification / creation / update step of
`kakao_login_process`, src/users/api.py lines 144–213 (given the already
parsed external profile): look the account up by the external id; if found,
apply the partial update and save only when a field changed; if not found,
reject a duplicate email before creating, then create via `create_user`;
finally the line-205 `is_active` re-check guards token issuance. -/
def reconcile (store : AccountStore) (p : ExternalProfile) :
    Except ReconcileError ReconcileOk :=
  match findAccount store p.externalId with
  | some user =>
    let (u, fs) := reconcileExisting user p
    let store' := if fs.isEmpty then store else saveAccount store u
    if !u.is_active then .error .accountDisabled
    else .ok { store := store', account := u, wrote := !fs.isEmpty, created := false }
  | none =>
    if truthy p.email && emailTaken store p.email then
      .error .duplicateEmail
    else
      match create_user p.externalId p.nickname p.email p.profile_image_url with
      | .error e => .error e
      | .ok u =>
        if !u.is_active then .error .accountDisabled
        else .ok { store := store ++ [u], account := u, wrote := true, created := true }

/-!
Session tokens.  Modelled from the spec: the token issue/refresh logic is
delegated to the third-party ninja-jwt library and is not part of this
repository's source; §4.3 of the spec fixes its contract (stateless signed
tokens carrying the account id as subject plus issued-at/expiry claims,
distinct for access vs refresh; refresh verifies signature and expiry only
and re-derives a new pair for the same subject).
-/

/-- Claims carried by a session token: subject (the account id), issue and
expiry instants, and whether it is a refresh token. -/
structure TokenClaims where
  subject : String
  issuedAt : Nat
  expiry : Nat
  isRefresh : Bool
  deriving Repr, DecidableEq

/-- A signed token: claims plus a MAC over them. -/
structure SignedToken where
  claims : TokenClaims
  mac : Nat
  deriving Repr, DecidableEq

/-- An access/refresh credential pair. -/
structure TokenPair where
  access : SignedToken
  refreshTok : SignedToken
  deriving Repr, DecidableEq

/-- Modelled from the spec: signing configuration — the secret key and the
two lifetimes (access short-lived, refresh longer-lived). -/
structure TokenConfig where
  key : Nat
  accessLifetime : Nat
  refreshLifetime : Nat
  deriving Repr, DecidableEq

/-- Modelled from the spec: a keyed MAC over token claims.  Any concrete
computable function works for the properties proved here; a token is valid
exactly when its stored `mac` equals this recomputation. -/
def sign (key : Nat) (c : TokenClaims) : Nat :=
  Nat.pair key (Nat.pair c.subject.length
    (Nat.pair c.issuedAt (Nat.pair c.expiry (if c.isRefresh then 1 else 0))))

/-- Modelled from the spec: `issue(account)` — mint an access/refresh pair
whose subject is the account id, with distinct expiry claims. -/
def issue (cfg : TokenConfig) (now : Nat) (account : Account) : TokenPair :=
  let ac : TokenClaims :=
    { subject := account.id, issuedAt := now, expiry := now + cfg.accessLifetime,
      isRefresh := false }
  let rc : TokenClaims :=
    { subject := account.id, issuedAt := now, expiry := now + cfg.refreshLifetime,
      isRefresh := true }
  { access := { claims := ac, mac := sign cfg.key ac },
    refreshTok := { claims := rc, mac := sign cfg.key rc } }

/-- Token-verification failure. -/
inductive TokenError where
  | invalidOrExpiredToken
  deriving Repr, DecidableEq

/-- Modelled from the spec: stateless verification — the MAC must match and
the token must be an unexpired refresh token; no store is consulted (none is
even passed). -/
def verifyRefresh (cfg : TokenConfig) (now : Nat) (t : SignedToken) : Bool :=
  t.mac == sign cfg.key t.claims && t.claims.isRefresh && now < t.claims.expiry

/-- Modelled from the spec: `refresh(refreshToken)` — verify signature and
expiry, then re-derive a fresh pair bound to the same subject. -/
def refresh (cfg : TokenConfig) (now : Nat) (t : SignedToken) :
    Except TokenError TokenPair :=
  if verifyRefresh cfg now t then
    let ac : TokenClaims :=
      { subject := t.claims.subject, issuedAt := now,
        expiry := now + cfg.accessLifetime, isRefresh := false }
    let rc : TokenClaims :=
      { subject := t.claims.subject, issuedAt := now,
        expiry := now + cfg.refreshLifetime, isRefresh := true }
    .ok { access := { claims := ac, mac := sign cfg.key ac },
          refreshTok := { claims := rc, mac := sign cfg.key rc } }
  else .error .invalidOrExpiredToken

/-!
Carpools (src/carpools/api.py and src/carpools/models.py).  `likes` is a
`PositiveIntegerField` (embedded as `Nat`); `departure_time` a datetime
(embedded as a `Nat` timestamp).
-/

/-- A `Carpool` row, restricted to the columns the listing and like
endpoints touch. -/
structure Carpool where
  id : Nat
  departure : String
  destination : String
  departure_time : Nat
  seats_available : Nat
  title : String
  description : String
  likes : Nat
  deriving Repr, DecidableEq

/-- Whether the character list `n` occurs at the head of `h`. -/
def charsLeadMatch : List Char → List Char → Bool
  | [], _ => true
  | _ :: _, [] => false
  | a :: as, b :: bs => a == b && charsLeadMatch as bs

/-- Whether the character list `n` occurs anywhere inside `h`. -/
def charsOccur (n : List Char) : List Char → Bool
  | [] => n.isEmpty
  | h :: t => charsLeadMatch n (h :: t) || charsOccur n t

/-- Django's `__icontains`: case-insensitive substring containment. -/
def icontains (hay needle : String) : Bool :=
  charsOccur needle.toLower.data hay.toLower.data

/-- The filtering half of `list_carpools` (src/carpools/api.py lines
46–51): narrow the queryset by `departure__icontains` and
`destination__icontains` when the parameters are truthy. -/
def carpool_filter (db : List Carpool) (departure destination : Option String) :
    List Carpool :=
  let qs := db
  let qs := match departure with
    | some d => if !(d == "") then qs.filter (fun c => icontains c.departure d) else qs
    | none => qs
  match destination with
  | some d => if !(d == "") then qs.filter (fun c => icontains c.destination d) else qs
  | none => qs

/-- `list_carpools` (src/carpools/api.py lines 39–56, the first
registration of `GET ""`, which django-ninja dispatches to): filter, then
order by `departure_time` only when `sort` is in the two-value allow-list,
else leave the database's default order. -/
def list_carpools (db : List Carpool) (departure destination : Option String)
    (sort : String) : List Carpool :=
  let qs := carpool_filter db departure destination
  if sort == "departure_time" then
    qs.insertionSort (fun a b => a.departure_time ≤ b.departure_time)
  else if sort == "-departure_time" then
    qs.insertionSort (fun a b => b.departure_time ≤ a.departure_time)
  else qs

/-- `like_carpool` (src/carpools/api.py lines 89–94): increment and save. -/
def like_carpool (c : Carpool) : Carpool :=
  { c with likes := c.likes + 1 }

/-- `unlike_carpool` (src/carpools/api.py lines 97–103): decrement and save
only when the count is positive. -/
def unlike_carpool (c : Carpool) : Carpool :=
  if c.likes > 0 then { c with likes := c.likes - 1 } else c

/-!
Reviews (src/reviews/api.py and src/reviews/models.py).  `likes` and
`views` are `IntegerField`s (embedded as `Int`); `created_at` a datetime
(embedded as a `Nat` timestamp).  The `author` foreign key is flattened into
the two attributes the handlers read: `author_username` (read by
`list_reviews` — note the `CustomUser` revision in src/users/models.py has
no `username` attribute, another draft-revision mismatch) and
`author_nickname` (read by `retrieve_review`).
-/

/-- A `Review` row with its author's attributes flattened in. -/
structure Review where
  id : Nat
  author_username : String
  author_nickname : String
  title : String
  content : String
  region : String
  place : String
  likes : Int
  views : Int
  created_at : Nat
  deriving Repr, DecidableEq

/-- The detail projection returned by `retrieve_review` (schema
`ReviewDetailOut`). -/
structure ReviewDetailOut where
  reviewId : Nat
  title : String
  author : String
  content : String
  region : String
  place : String
  likes : Int
  views : Int
  createdAt : Nat
  deriving Repr, DecidableEq

/-- `get_object_or_404(Review, id=review_id)`. -/
def findReview (db : List Review) (i : Nat) : Option Review :=
  db.find? (fun r => r.id == i)

/-- `review.save()`: replace the row with the matching primary key. -/
def saveReview (db : List Review) (r : Review) : List Review :=
  db.map (fun x => if x.id == r.id then r else x)

/-- `retrieve_review` (src/reviews/api.py lines 92–110): fetch by id (404
when absent), increment `views`, save, and return the detail projection of
the updated row.  The result is the store after the call together with the
response body. -/
def retrieve_review (db : List Review) (review_id : Nat) :
    Option (List Review × ReviewDetailOut) :=
  match findReview db review_id with
  | none => none
  | some review =>
    let review := { review with views := review.views + 1 }
    some (saveReview db review,
      { reviewId := review.id, title := review.title,
        author := review.author_nickname, content := review.content,
        region := review.region, place := review.place, likes := review.likes,
        views := review.views, createdAt := review.created_at })

/-- `like_review` (src/reviews/api.py lines 174–179): increment and save. -/
def like_review (r : Review) : Review :=
  { r with likes := r.likes + 1 }

/-- `unlike_review` (src/reviews/api.py lines 181–191): decrement and save
only when the count is positive. -/
def unlike_review (r : Review) : Review :=
  if r.likes > 0 then { r with likes := r.likes - 1 } else r

/-!
Rankings (src/rankings/api.py).  `get_rankings` builds
`sort_field = sortBy` (prefixed with a minus sign when `order == "desc"`)
and passes it straight to `order_by` — there is no allow-list.  A `sortBy`
naming a real `CustomUser` column therefore orders by that column; any
other name makes Django's `order_by` raise `FieldError`, which no handler
catches (an unhandled 500).
-/

theorem upd_email_id (user : Account) (p : ExternalProfile) :
    (upd_email user p).1.id = user.id := by
  cases hc : truthy p.email && !(user.email == p.email) <;> simp [upd_email, hc]

theorem upd_email_nick (user : Account) (p : ExternalProfile) :
    (upd_email user p).1.nickname = user.nickname := by
  cases hc : truthy p.email && !(user.email == p.email) <;> simp [upd_email, hc]

theorem upd_email_img (user : Account) (p : ExternalProfile) :
    (upd_email user p).1.profile_image_url = user.profile_image_url := by
  cases hc : truthy p.email && !(user.email == p.email) <;> simp [upd_email, hc]

theorem upd_email_act (user : Account) (p : ExternalProfile) :
    (upd_email user p).1.is_active = user.is_active := by
  cases hc : truthy p.email && !(user.email == p.email) <;> simp [upd_email, hc]

theorem upd_email_val (user : Account) (p : ExternalProfile) :
    (upd_email user p).1.email =
      if truthy p.email && !(user.email == p.email) then p.email else user.email := by
  cases hc : truthy p.email && !(user.email == p.email) <;> simp [upd_email, hc]

theorem upd_email_snd (user : Account) (p : ExternalProfile) :
    (upd_email user p).2 =
      if truthy p.email && !(user.email == p.email) then ["email"] else [] := by
  cases hc : truthy p.email && !(user.email == p.email) <;> simp [upd_email, hc]

theorem upd_nickname_id (s : Account × List String) (p : ExternalProfile) :
    (upd_nickname s p).1.id = s.1.id := by
  cases hc : truthy p.nickname && !(some s.1.nickname == p.nickname) <;>
    simp [upd_nickname, hc]

theorem upd_nickname_email (s : Account × List String) (p : ExternalProfile) :
    (upd_nickname s p).1.email = s.1.email := by
  cases hc : truthy p.nickname && !(some s.1.nickname == p.nickname) <;>
    simp [upd_nickname, hc]

theorem upd_nickname_img (s : Account × List String) (p : ExternalProfile) :
    (upd_nickname s p).1.profile_image_url = s.1.profile_image_url := by
  cases hc : truthy p.nickname && !(some s.1.nickname == p.nickname) <;>
    simp [upd_nickname, hc]

theorem upd_nickname_act (s : Account × List String) (p : ExternalProfile) :
    (upd_nickname s p).1.is_active = s.1.is_active := by
  cases hc : truthy p.nickname && !(some s.1.nickname == p.nickname) <;>
    simp [upd_nickname, hc]

theorem upd_nickname_val (s : Account × List String) (p : ExternalProfile) :
    (upd_nickname s p).1.nickname =
      if truthy p.nickname && !(some s.1.nickname == p.nickname) then
        p.nickname.getD s.1.nickname
      else s.1.nickname := by
  cases hc : truthy p.nickname && !(some s.1.nickname == p.nickname) <;>
    simp [upd_nickname, hc]

theorem upd_nickname_snd (s : Account × List String) (p : ExternalProfile) :
    (upd_nickname s p).2 =
      if truthy p.nickname && !(some s.1.nickname == p.nickname) then
        s.2 ++ ["nickname"]
      else s.2 := by
  cases hc : truthy p.nickname && !(some s.1.nickname == p.nickname) <;>
    simp [upd_nickname, hc]

theorem upd_image_id (s : Account × List String) (p : ExternalProfile) :
    (upd_image s p).1.id = s.1.id := by
  cases hc : truthy p.profile_image_url && !(s.1.profile_image_url == p.profile_image_url) <;>
    simp [upd_image, hc]

theorem upd_image_email (s : Account × List String) (p : ExternalProfile) :
    (upd_image s p).1.email = s.1.email := by
  cases hc : truthy p.profile_image_url && !(s.1.profile_image_url == p.profile_image_url) <;>
    simp [upd_image, hc]

theorem upd_image_nick (s : Account × List String) (p : ExternalProfile) :
    (upd_image s p).1.nickname = s.1.nickname := by
  cases hc : truthy p.profile_image_url && !(s.1.profile_image_url == p.profile_image_url) <;>
    simp [upd_image, hc]

theorem upd_image_act (s : Account × List String) (p : ExternalProfile) :
    (upd_image s p).1.is_active = s.1.is_active := by
  cases hc : truthy p.profile_image_url && !(s.1.profile_image_url == p.profile_image_url) <;>
    simp [upd_image, hc]

theorem upd_image_val (s : Account × List String) (p : ExternalProfile) :
    (upd_image s p).1.profile_image_url =
      if truthy p.profile_image_url && !(s.1.profile_image_url == p.profile_image_url) then
        p.profile_image_url
      else s.1.profile_image_url := by
  cases hc : truthy p.profile_image_url && !(s.1.profile_image_url == p.profile_image_url) <;>
    simp [upd_image, hc]

theorem upd_image_snd (s : Account × List String) (p : ExternalProfile) :
    (upd_image s p).2 =
      if truthy p.profile_image_url && !(s.1.profile_image_url == p.profile_image_url) then
        s.2 ++ ["profile_image_url"]
      else s.2 := by
  cases hc : truthy p.profile_image_url && !(s.1.profile_image_url == p.profile_image_url) <;>
    simp [upd_image, hc]

theorem upd_active_id (s : Account × List String) : (upd_active s).1.id = s.1.id := by
  cases hc : s.1.is_active <;> simp [upd_active, hc]

theorem upd_active_email (s : Account × List String) :
    (upd_active s).1.email = s.1.email := by
  cases hc : s.1.is_active <;> simp [upd_active, hc]

theorem upd_active_nick (s : Account × List String) :
    (upd_active s).1.nickname = s.1.nickname := by
  cases hc : s.1.is_active <;> simp [upd_active, hc]

theorem upd_active_img (s : Account × List String) :
    (upd_active s).1.profile_image_url = s.1.profile_image_url := by
  cases hc : s.1.is_active <;> simp [upd_active, hc]

theorem upd_active_val (s : Account × List String) : (upd_active s).1.is_active = true := by
  cases hc : s.1.is_active <;> simp [upd_active, hc]

theorem upd_active_snd (s : Account × List String) :
    (upd_active s).2 = if s.1.is_active then s.2 else s.2 ++ ["is_active"] := by
  cases hc : s.1.is_active <;> simp [upd_active, hc]

theorem rex_id (user : Account) (p : ExternalProfile) :
    (reconcileExisting user p).1.id = user.id := by
  unfold reconcileExisting
  rw [upd_active_id, upd_image_id, upd_nickname_id, upd_email_id]

theorem rex_act (user : Account) (p : ExternalProfile) :
    (reconcileExisting user p).1.is_active = true := by
  unfold reconcileExisting
  rw [upd_active_val]

theorem rex_email (user : Account) (p : ExternalProfile) :
    (reconcileExisting user p).1.email =
      if truthy p.email && !(user.email == p.email) then p.email else user.email := by
  unfold reconcileExisting
  rw [upd_active_email, upd_image_email, upd_nickname_email, upd_email_val]

theorem rex_nick (user : Account) (p : ExternalProfile) :
    (reconcileExisting user p).1.nickname =
      if truthy p.nickname && !(some user.nickname == p.nickname) then
        p.nickname.getD user.nickname
      else user.nickname := by
  unfold reconcileExisting
  rw [upd_active_nick, upd_image_nick, upd_nickname_val, upd_email_nick]

theorem rex_img (user : Account) (p : ExternalProfile) :
    (reconcileExisting user p).1.profile_image_url =
      if truthy p.profile_image_url && !(user.profile_image_url == p.profile_image_url) then
        p.profile_image_url
      else user.profile_image_url := by
  unfold reconcileExisting
  rw [upd_active_img, upd_image_val, upd_nickname_img, upd_email_img]

theorem rex_snd (user : Account) (p : ExternalProfile) :
    (reconcileExisting user p).2 =
      (let t1 := if truthy p.email && !(user.email == p.email) then ["email"] else []
       let t2 :=
         if truthy p.nickname && !(some user.nickname == p.nickname) then
           t1 ++ ["nickname"]
         else t1
       let t3 :=
         if truthy p.profile_image_url && !(user.profile_image_url == p.profile_image_url) then
           t2 ++ ["profile_image_url"]
         else t2
       if user.is_active then t3 else t3 ++ ["is_active"]) := by
  unfold reconcileExisting
  rw [upd_active_snd, upd_image_act, upd_nickname_act, upd_email_act,
      upd_image_snd, upd_nickname_img, upd_email_img,
      upd_nickname_snd, upd_email_nick, upd_email_snd]

/-- The update branch writes nothing exactly when no external value forces a
change and the account was already active. -/
theorem rex_snd_nil_iff (user : Account) (p : ExternalProfile) :
    (reconcileExisting user p).2 = [] ↔
      ((truthy p.email && !(user.email == p.email)) = false ∧
       (truthy p.nickname && !(some user.nickname == p.nickname)) = false ∧
       (truthy p.profile_image_url && !(user.profile_image_url == p.profile_image_url)) = false ∧
       user.is_active = true) := by
  rw [rex_snd]
  cases h1 : truthy p.email && !(user.email == p.email) <;>
  cases h2 : truthy p.nickname && !(some user.nickname == p.nickname) <;>
  cases h3 : truthy p.profile_image_url && !(user.profile_image_url == p.profile_image_url) <;>
  cases h4 : user.is_active <;> simp

/-- When nothing forces a change, the update branch returns the stored
account unmodified. -/
theorem rex_fst_nochange (user : Account) (p : ExternalProfile)
    (h1 : (truthy p.email && !(user.email == p.email)) = false)
    (h2 : (truthy p.nickname && !(some user.nickname == p.nickname)) = false)
    (h3 : (truthy p.profile_image_url && !(user.profile_image_url == p.profile_image_url)) = false)
    (h4 : user.is_active = true) :
    (reconcileExisting user p).1 = user := by
  have hid := rex_id user p
  have hem := rex_email user p
  have hni := rex_nick user p
  have him := rex_img user p
  have hac := rex_act user p
  rw [h1] at hem
  rw [h2] at hni
  rw [h3] at him
  simp only [if_neg Bool.false_ne_true, Bool.false_eq_true, if_false] at hem hni him
  calc (reconcileExisting user p).1
      = { id := (reconcileExisting user p).1.id,
          nickname := (reconcileExisting user p).1.nickname,
          email := (reconcileExisting user p).1.email,
          profile_image_url := (reconcileExisting user p).1.profile_image_url,
          is_active := (reconcileExisting user p).1.is_active } := rfl
    _ = { id := user.id, nickname := user.nickname, email := user.email,
          profile_image_url := user.profile_image_url, is_active := user.is_active } := by
          rw [hid, hem, hni, him, hac, h4]
    _ = user := rfl

/-- Reduction of `reconcile` in the account-found case: the line-205
`is_active` guard never fires because the update branch reactivates. -/
theorem reconcile_found (store : AccountStore) (p : ExternalProfile) (user : Account)
    (hfind : findAccount store p.externalId = some user) :
    reconcile store p =
      .ok { store :=
              if ((reconcileExisting user p).2).isEmpty then store
              else saveAccount store (reconcileExisting user p).1,
            account := (reconcileExisting user p).1,
            wrote := !((reconcileExisting user p).2).isEmpty,
            created := false } := by
  have hact := rex_act user p
  rcases hre : reconcileExisting user p with ⟨u, fs⟩
  rw [hre] at hact
  simp only at hact
  simp only [reconcile, hfind, hre]
  simp [hact]

/-- A truthy optional string is a non-empty `some`. -/
theorem truthy_some {o : Option String} (h : truthy o = true) :
    ∃ s, o = some s ∧ (s == "") = false := by
  cases o with
  | none => simp [truthy] at h
  | some s =>
    refine ⟨s, rfl, ?_⟩
    simpa [truthy] using h

/-- A non-empty `fields_to_update` means the update branch really changed
the account record. -/
theorem rex_ne_of_snd_ne_nil (user : Account) (p : ExternalProfile)
    (h : (reconcileExisting user p).2 ≠ []) :
    (reconcileExisting user p).1 ≠ user := by
  intro hEq
  apply h
  rw [rex_snd_nil_iff]
  refine ⟨?_, ?_, ?_, ?_⟩
  · cases h1 : truthy p.email && !(user.email == p.email) with
    | false => rfl
    | true =>
      exfalso
      have he := rex_email user p
      rw [h1, if_pos rfl] at he
      rw [hEq] at he
      simp [Bool.and_eq_true] at h1
      exact h1.2 he
  · cases h2 : truthy p.nickname && !(some user.nickname == p.nickname) with
    | false => rfl
    | true =>
      exfalso
      have hn := rex_nick user p
      rw [h2, if_pos rfl] at hn
      simp [Bool.and_eq_true] at h2
      obtain ⟨s, hs, _⟩ := truthy_some h2.1
      rw [hs] at hn
      simp only [Option.getD_some] at hn
      rw [hEq] at hn
      exact h2.2 (by rw [hs, hn])
  · cases h3 : truthy p.profile_image_url && !(user.profile_image_url == p.profile_image_url) with
    | false => rfl
    | true =>
      exfalso
      have hi := rex_img user p
      rw [h3, if_pos rfl] at hi
      rw [hEq] at hi
      simp [Bool.and_eq_true] at h3
      exact h3.2 hi
  · have ha := rex_act user p
    rw [hEq] at ha
    exact ha

/-- C1.  For every existing Account matched by external id, reconciliation
applies a partial update: each of email / nickname / profile_image_url is
changed only when the external profile supplies a non-empty value differing
from the stored one; an absent or consent-denied external field never
blanks out a previously stored value; the row is written only if at least
one field changed, and an unchanged profile (on an active account) causes
no storage write. -/
theorem C1_reconcile_partial_update (store : AccountStore) (p : ExternalProfile)
    (user : Account) (hfind : findAccount store p.externalId = some user) :
    ∃ r, reconcile store p = .ok r ∧ r.created = false ∧
      (r.account.email ≠ user.email →
        truthy p.email = true ∧ r.account.email = p.email) ∧
      (r.account.nickname ≠ user.nickname →
        truthy p.nickname = true ∧ some r.account.nickname = p.nickname) ∧
      (r.account.profile_image_url ≠ user.profile_image_url →
        truthy p.profile_image_url = true ∧ r.account.profile_image_url = p.profile_image_url) ∧
      (truthy p.email = false → r.account.email = user.email) ∧
      (truthy p.nickname = false → r.account.nickname = user.nickname) ∧
      (truthy p.profile_image_url = false →
        r.account.profile_image_url = user.profile_image_url) ∧
      (r.wrote = false → r.store = store) ∧
      (r.wrote = true → r.account ≠ user) ∧
      (user.is_active = true →
        (truthy p.email = false ∨ p.email = user.email) →
        (truthy p.nickname = false ∨ p.nickname = some user.nickname) →
        (truthy p.profile_image_url = false ∨ p.profile_image_url = user.profile_image_url) →
        r.store = store ∧ r.wrote = false) := by
  refine ⟨_, reconcile_found store p user hfind, rfl, ?_, ?_, ?_, ?_, ?_, ?_, ?_, ?_, ?_⟩
  · intro hne
    simp only at hne ⊢
    rw [rex_email] at hne ⊢
    by_cases hc : (truthy p.email && !(user.email == p.email)) = true
    · rw [if_pos hc]
      simp [Bool.and_eq_true] at hc
      exact ⟨hc.1, rfl⟩
    · rw [if_neg hc] at hne
      exact absurd rfl hne
  · intro hne
    simp only at hne ⊢
    rw [rex_nick] at hne ⊢
    by_cases hc : (truthy p.nickname && !(some user.nickname == p.nickname)) = true
    · rw [if_pos hc]
      simp [Bool.and_eq_true] at hc
      obtain ⟨s, hs, _⟩ := truthy_some hc.1
      refine ⟨hc.1, ?_⟩
      rw [hs]
      simp
    · rw [if_neg hc] at hne
      exact absurd rfl hne
  · intro hne
    simp only at hne ⊢
    rw [rex_img] at hne ⊢
    by_cases hc : (truthy p.profile_image_url &&
        !(user.profile_image_url == p.profile_image_url)) = true
    · rw [if_pos hc]
      simp [Bool.and_eq_true] at hc
      exact ⟨hc.1, rfl⟩
    · rw [if_neg hc] at hne
      exact absurd rfl hne
  · intro hf
    simp only
    rw [rex_email, hf]
    simp
  · intro hf
    simp only
    rw [rex_nick, hf]
    simp
  · intro hf
    simp only
    rw [rex_img, hf]
    simp
  · intro hw
    simp only at hw ⊢
    rw [Bool.not_eq_false'] at hw
    simp [hw]
  · intro hw
    simp only at hw ⊢
    rw [Bool.not_eq_true'] at hw
    exact rex_ne_of_snd_ne_nil user p (by simp [List.isEmpty_iff] at hw; exact hw)
  · intro hact hE hN hI
    have h1 : (truthy p.email && !(user.email == p.email)) = false := by
      rcases hE with h | h
      · simp [h]
      · simp [h]
    have h2 : (truthy p.nickname && !(some user.nickname == p.nickname)) = false := by
      rcases hN with h | h
      · simp [h]
      · simp [h]
    have h3 : (truthy p.profile_image_url &&
        !(user.profile_image_url == p.profile_image_url)) = false := by
      rcases hI with h | h
      · simp [h]
      · simp [h]
    have hnil : (reconcileExisting user p).2 = [] :=
      (rex_snd_nil_iff user p).mpr ⟨h1, h2, h3, hact⟩
    constructor
    · simp only
      simp [hnil]
    · simp only
      simp [hnil]

/-- Concrete existing account for exercising the update branch. -/
def acctC1 : Account :=
  { id := "10", nickname := "Old", email := some "a@b.c",
    profile_image_url := none, is_active := true }

/-- Concrete external profile whose fields are all absent or empty. -/
def profC1 : ExternalProfile :=
  { externalId := "10", email := none, nickname := some "",
    profile_image_url := none }

/-- Witness for C1: on a concrete active account, a profile supplying no
usable value causes no storage write. -/
theorem C1_reconcile_partial_update_witness :
    ∃ r, reconcile [acctC1] profC1 = Except.ok r ∧ r.store = [acctC1] ∧
      r.wrote = false := by
  obtain ⟨r, hok, -, -, -, -, -, -, -, -, -, hun⟩ :=
    C1_reconcile_partial_update [acctC1] profC1 acctC1 rfl
  obtain ⟨hs, hw⟩ := hun rfl (Or.inl rfl) (Or.inl rfl) (Or.inl rfl)
  exact ⟨r, hok, hs, hw⟩

/-- Reduction of `reconcile` in the creation case: with a fresh external id,
no email collision, a usable nickname and a non-empty id, `create_user`
inserts exactly one new row built from the external profile. -/
theorem reconcile_create (store : AccountStore) (p : ExternalProfile)
    (hnew : findAccount store p.externalId = none)
    (hmail : (truthy p.email && emailTaken store p.email) = false)
    (hid : (p.externalId == "") = false)
    (n : String) (hn : p.nickname = some n) (hne : (n == "") = false) :
    reconcile store p =
      .ok { store := store ++
              [{ id := p.externalId, nickname := n, email := p.email,
                 profile_image_url := p.profile_image_url, is_active := true }],
            account := { id := p.externalId, nickname := n, email := p.email,
                         profile_image_url := p.profile_image_url, is_active := true },
            wrote := true, created := true } := by
  simp only [reconcile, hnew, hmail]
  simp [create_user, hid, hn, hne]

/-- C2.  For every external id not previously seen (with a usable nickname,
a non-empty id and no email collision, so that creation succeeds),
reconciliation creates exactly one Account whose primary key is that
external id, and reconciling again with the unchanged profile is a no-op on
storage: no second create and no update write. -/
theorem C2_reconcile_create_idempotent (store : AccountStore) (p : ExternalProfile)
    (hnew : findAccount store p.externalId = none)
    (hid : (p.externalId == "") = false)
    (hnick : truthy p.nickname = true)
    (hmail : (truthy p.email && emailTaken store p.email) = false) :
    ∃ r, reconcile store p = .ok r ∧ r.created = true ∧ r.wrote = true ∧
      r.account.id = p.externalId ∧
      r.store = store ++ [r.account] ∧
      r.store.countP (fun a => a.id == p.externalId) = 1 ∧
      ∃ r2, reconcile r.store p = .ok r2 ∧ r2.store = r.store ∧ r2.wrote = false ∧
        r2.created = false := by
  obtain ⟨n, hn, hne⟩ := truthy_some hnick
  have hcr := reconcile_create store p hnew hmail hid n hn hne
  refine ⟨_, hcr, rfl, rfl, rfl, rfl, ?_, ?_⟩
  · simp only
    rw [List.countP_append]
    have h0 : store.countP (fun a => a.id == p.externalId) = 0 := by
      rw [List.countP_eq_zero]
      intro a ha
      exact List.find?_eq_none.mp hnew a ha
    rw [h0]
    simp
  · set acct : Account :=
      { id := p.externalId, nickname := n, email := p.email,
        profile_image_url := p.profile_image_url, is_active := true } with hacct
    have hfound2 : findAccount (store ++ [acct]) p.externalId = some acct := by
      unfold findAccount at hnew ⊢
      rw [List.find?_append, hnew]
      simp
    have hnil : (reconcileExisting acct p).2 = [] := by
      rw [rex_snd_nil_iff]
      refine ⟨by simp, by simp [hn], by simp, rfl⟩
    have hred := reconcile_found (store ++ [acct]) p acct hfound2
    refine ⟨_, hred, ?_, ?_, rfl⟩
    · simp only
      simp [hnil]
    · simp only
      simp [hnil]

/-- Concrete fresh profile for the creation path. -/
def profC2 : ExternalProfile :=
  { externalId := "42", email := some "new@e.kr", nickname := some "Kim",
    profile_image_url := some "http://img" }

/-- Witness for C2: creating from an empty store, then replaying the same
profile, writes exactly one row and then nothing. -/
theorem C2_reconcile_create_idempotent_witness :
    ∃ r, reconcile [] profC2 = Except.ok r ∧ r.created = true ∧ r.wrote = true ∧
      r.account.id = "42" ∧
      r.store = [] ++ [r.account] ∧
      r.store.countP (fun a => a.id == "42") = 1 ∧
      ∃ r2, reconcile r.store profC2 = Except.ok r2 ∧ r2.store = r.store ∧
        r2.wrote = false ∧ r2.created = false :=
  C2_reconcile_create_idempotent [] profC2 rfl rfl rfl rfl

/-- C3.  For every external profile whose external id is unseen but whose
supplied email equals the email of an existing Account, reconciliation
fails with `DuplicateEmail`; the failure is returned before `create_user`
runs, so no row is created or modified (in this embedding an error result
carries no store at all). -/
theorem C3_reconcile_duplicate_email (store : AccountStore) (p : ExternalProfile)
    (hnew : findAccount store p.externalId = none)
    (he : truthy p.email = true)
    (a : Account) (ha : a ∈ store) (hmail : a.email = p.email) :
    reconcile store p = .error .duplicateEmail ∧
      ∀ r, reconcile store p ≠ .ok r := by
  have ht : emailTaken store p.email = true := by
    unfold emailTaken
    rw [List.any_eq_true]
    exact ⟨a, ha, by simp [hmail]⟩
  have herr : reconcile store p = .error .duplicateEmail := by
    simp only [reconcile, hnew, he, ht]
    simp
  refine ⟨herr, ?_⟩
  intro r hr
  rw [herr] at hr
  exact Except.noConfusion hr

/-- Concrete occupied account for the collision path. -/
def acctC3 : Account :=
  { id := "1", nickname := "A", email := some "x@y.z",
    profile_image_url := none, is_active := true }

/-- Concrete colliding profile: unseen id `2`, same email as `acctC3`. -/
def profC3 : ExternalProfile :=
  { externalId := "2", email := some "x@y.z", nickname := some "B",
    profile_image_url := none }

/-- Witness for C3 at a concrete store and profile. -/
theorem C3_reconcile_duplicate_email_witness :
    reconcile [acctC3] profC3 = Except.error ReconcileError.duplicateEmail ∧
      ∀ r, reconcile [acctC3] profC3 ≠ Except.ok r :=
  C3_reconcile_duplicate_email [acctC3] profC3 rfl rfl acctC3 (by simp) rfl

/-- The provider payload of the C4 scenario under full consent: id 555 and
nickname "Jo" with the profile consent flag granted
(`profile_needs_agreement = false`); no email on the Kakao account. -/
def infoC4 : UserInfo :=
  { id := 555,
    kakao_account := { KakaoAccount.empty with
      profile_needs_agreement := some false,
      profile := { nickname := some "Jo", profile_image_url := none } } }

/-- The same payload with no consent flags at all: the literal
`{id: 555, kakao_account: {profile: {nickname: "Jo"}}}`. -/
def infoC4bare : UserInfo :=
  { id := 555,
    kakao_account := { KakaoAccount.empty with
      profile := { nickname := some "Jo", profile_image_url := none } } }

/-- The Account the C4 scenario creates. -/
def acctC4 : Account :=
  { id := "555", nickname := "Jo", email := none,
    profile_image_url := none, is_active := true }

/-- C4.  Exchanging the code successfully and receiving
`{id: 555, kakao_account: {profile: {nickname: "Jo"}}}` under full consent
creates exactly the Account `{id "555", nickname "Jo", email none}` and the
issued token pair has subject `"555"`; and in general, profile fields
behind ungranted consent are normalized to absent (`none`), never to a
placeholder value.  (The code-for-token HTTP exchange itself is external
I/O; the embedding starts at the returned profile payload, and token
issuance is the spec-modelled issuer standing in for
`RefreshToken.for_user`.) -/
theorem C4_login_scenario :
    reconcile [] (parseProfile infoC4) =
      Except.ok { store := [acctC4], account := acctC4, wrote := true,
                  created := true } ∧
    (∀ (cfg : TokenConfig) (now : Nat),
      (issue cfg now acctC4).access.claims.subject = "555" ∧
      (issue cfg now acctC4).refreshTok.claims.subject = "555") ∧
    (∀ u : UserInfo, u.kakao_account.profile_needs_agreement.getD true = true →
      (parseProfile u).nickname = none ∧ (parseProfile u).profile_image_url = none) ∧
    (∀ u : UserInfo, u.kakao_account.email_needs_agreement.getD true = true →
      (parseProfile u).email = none) := by
  refine ⟨rfl, fun cfg now => ⟨rfl, rfl⟩, ?_, ?_⟩
  · intro u h
    constructor <;> simp [parseProfile, h]
  · intro u h
    simp [parseProfile, h]

/-- Witness for C4: on the literal payload without consent flags, nickname
and email are normalized to absent; the issued access token for the created
account carries subject "555". -/
theorem C4_login_scenario_witness :
    (parseProfile infoC4bare).nickname = none ∧
    (parseProfile infoC4bare).email = none ∧
    (issue { key := 1, accessLifetime := 2, refreshLifetime := 3 } 0
      acctC4).access.claims.subject = "555" :=
  ⟨(C4_login_scenario.2.2.1 infoC4bare rfl).1,
   C4_login_scenario.2.2.2 infoC4bare rfl,
   (C4_login_scenario.2.1 { key := 1, accessLifetime := 2, refreshLifetime := 3 } 0).1⟩

/-- C5.  For every unseen external id whose profile has no usable nickname
(absent or empty, e.g. consent-denied), creation is rejected with the
`NicknameRequired` failure — the `ValueError` raised by
`CustomUserManager.create_user` before any row is built — so no placeholder
nickname is synthesized and no Account is left behind (an error result
carries no store). -/
theorem C5_nickname_required (store : AccountStore) (p : ExternalProfile)
    (hnew : findAccount store p.externalId = none)
    (hmail : (truthy p.email && emailTaken store p.email) = false)
    (hid : (p.externalId == "") = false)
    (habsent : truthy p.nickname = false) :
    reconcile store p = .error .nicknameRequired ∧
      ∀ r, reconcile store p ≠ .ok r := by
  have herr : reconcile store p = .error .nicknameRequired := by
    simp only [reconcile, hnew, hmail]
    cases hp : p.nickname with
    | none => simp [create_user, hid, hp]
    | some s =>
      have hs : (s == "") = true := by
        rw [hp] at habsent
        simpa [truthy] using habsent
      simp [create_user, hid, hp, hs]
  refine ⟨herr, ?_⟩
  intro r hr
  rw [herr] at hr
  exact Except.noConfusion hr

/-- Concrete profile with consent-denied nickname for a fresh id. -/
def profC5 : ExternalProfile :=
  { externalId := "9", email := none, nickname := none,
    profile_image_url := some "http://img" }

/-- Witness for C5 at a concrete store and profile. -/
theorem C5_nickname_required_witness :
    reconcile [] profC5 = Except.error ReconcileError.nicknameRequired ∧
      ∀ r, reconcile [] profC5 ≠ Except.ok r :=
  C5_nickname_required [] profC5 rfl rfl rfl rfl

/-- C6.  Issuing a pair and immediately refreshing with its refresh token
yields a fresh pair (equal to re-issuing at the same instant) whose access
token's subject is the account id; refreshing a tampered token (MAC does
not match its claims) or an expired one always fails
`InvalidOrExpiredToken`.  Verification is stateless by construction:
`refresh` takes only the signing configuration, the clock and the token —
no account store. -/
theorem C6_issue_refresh_roundtrip :
    (∀ (cfg : TokenConfig) (now : Nat) (acct : Account), 0 < cfg.refreshLifetime →
      refresh cfg now (issue cfg now acct).refreshTok = .ok (issue cfg now acct) ∧
      (issue cfg now acct).access.claims.subject = acct.id) ∧
    (∀ (cfg : TokenConfig) (now : Nat) (t : SignedToken),
      t.mac ≠ sign cfg.key t.claims →
      refresh cfg now t = .error .invalidOrExpiredToken) ∧
    (∀ (cfg : TokenConfig) (now : Nat) (t : SignedToken),
      t.claims.expiry ≤ now →
      refresh cfg now t = .error .invalidOrExpiredToken) := by
  refine ⟨?_, ?_, ?_⟩
  · intro cfg now acct h
    have hv : verifyRefresh cfg now (issue cfg now acct).refreshTok = true := by
      simp [verifyRefresh, issue, h]
    constructor
    · simp only [refresh, hv]
      simp [issue]
    · rfl
  · intro cfg now t h
    have hm : (t.mac == sign cfg.key t.claims) = false := by
      simp [h]
    have hv : verifyRefresh cfg now t = false := by
      simp [verifyRefresh, hm]
    simp [refresh, hv]
  · intro cfg now t h
    have hv : verifyRefresh cfg now t = false := by
      simp [verifyRefresh, Nat.not_lt.mpr h]
    simp [refresh, hv]

/-- Concrete signing configuration. -/
def cfgC6 : TokenConfig := { key := 5, accessLifetime := 10, refreshLifetime := 20 }

/-- Concrete account for token issuance. -/
def acctC6 : Account :=
  { id := "77", nickname := "Tok", email := none,
    profile_image_url := none, is_active := true }

/-- A tampered token: refresh-shaped claims with a wrong MAC. -/
def tamperedC6 : SignedToken :=
  { claims := { subject := "77", issuedAt := 0, expiry := 20, isRefresh := true },
    mac := 0 }

/-- Witness for C6 at concrete configuration, account and tokens. -/
theorem C6_issue_refresh_roundtrip_witness :
    refresh cfgC6 0 (issue cfgC6 0 acctC6).refreshTok = Except.ok (issue cfgC6 0 acctC6) ∧
    (issue cfgC6 0 acctC6).access.claims.subject = "77" ∧
    refresh cfgC6 0 tamperedC6 = Except.error TokenError.invalidOrExpiredToken ∧
    refresh cfgC6 25 (issue cfgC6 0 acctC6).refreshTok =
      Except.error TokenError.invalidOrExpiredToken :=
  ⟨(C6_issue_refresh_roundtrip.1 cfgC6 0 acctC6 (by decide)).1,
   (C6_issue_refresh_roundtrip.1 cfgC6 0 acctC6 (by decide)).2,
   C6_issue_refresh_roundtrip.2.1 cfgC6 0 tamperedC6 (by decide),
   C6_issue_refresh_roundtrip.2.2 cfgC6 25 (issue cfgC6 0 acctC6).refreshTok (by decide)⟩

/-- C7.  For both likeable resources: unliking at count 0 leaves the count
at 0 (never negative), liking then unliking returns the count to its
original value, and unliking never drives a non-negative review count
negative (carpool counts are naturally non-negative). -/
theorem C7_like_unlike_clamp :
    (∀ c : Carpool, c.likes = 0 → (unlike_carpool c).likes = 0) ∧
    (∀ c : Carpool, (unlike_carpool (like_carpool c)).likes = c.likes) ∧
    (∀ r : Review, r.likes = 0 → (unlike_review r).likes = 0) ∧
    (∀ r : Review, 0 ≤ r.likes → (unlike_review (like_review r)).likes = r.likes) ∧
    (∀ r : Review, 0 ≤ r.likes → 0 ≤ (unlike_review r).likes) := by
  refine ⟨?_, ?_, ?_, ?_, ?_⟩
  · intro c h
    simp [unlike_carpool, h]
  · intro c
    simp [unlike_carpool, like_carpool]
  · intro r h
    simp [unlike_review, h]
  · intro r h
    simp only [unlike_review, like_review]
    split
    · show r.likes + 1 - 1 = r.likes
      omega
    · rename_i hcon
      have hcon2 : ¬ (r.likes + 1 > 0) := hcon
      omega
  · intro r h
    simp only [unlike_review]
    split
    · rename_i hpos
      have hpos2 : r.likes > 0 := hpos
      show 0 ≤ r.likes - 1
      omega
    · exact h

/-- Concrete carpool row at like count 0. -/
def carpoolC7 : Carpool :=
  { id := 1, departure := "Seoul", destination := "Busan", departure_time := 3,
    seats_available := 2, title := "t", description := "d", likes := 0 }

/-- Concrete review row at like count 0. -/
def reviewC7 : Review :=
  { id := 1, author_username := "u", author_nickname := "n", title := "t",
    content := "c", region := "Seoul", place := "p", likes := 0, views := 0,
    created_at := 5 }

/-- Witness for C7 at concrete rows. -/
theorem C7_like_unlike_clamp_witness :
    (unlike_carpool carpoolC7).likes = 0 ∧
    (unlike_carpool (like_carpool carpoolC7)).likes = 0 ∧
    (unlike_review reviewC7).likes = 0 ∧
    (unlike_review (like_review reviewC7)).likes = 0 ∧
    0 ≤ (unlike_review reviewC7).likes :=
  ⟨C7_like_unlike_clamp.1 carpoolC7 rfl,
   C7_like_unlike_clamp.2.1 carpoolC7,
   C7_like_unlike_clamp.2.2.1 reviewC7 rfl,
   C7_like_unlike_clamp.2.2.2.1 reviewC7 (le_refl 0),
   C7_like_unlike_clamp.2.2.2.2 reviewC7 (le_refl 0)⟩

/-- C8.  Listing carpools with `departure=Seoul` and `sort=-departure_time`
returns exactly the rows whose departure field case-insensitively contains
"Seoul" (a permutation of that filter), ordered by departure_time
descending. -/
theorem C8_list_carpools_filter_sort (db : List Carpool) :
    (list_carpools db (some "Seoul") none "-departure_time").Perm
      (db.filter (fun c => icontains c.departure "Seoul")) ∧
    List.Pairwise (fun a b => b.departure_time ≤ a.departure_time)
      (list_carpools db (some "Seoul") none "-departure_time") := by
  have hunf : list_carpools db (some "Seoul") none "-departure_time" =
      (db.filter (fun c => icontains c.departure "Seoul")).insertionSort
        (fun a b => b.departure_time ≤ a.departure_time) := by
    simp [list_carpools, carpool_filter]
  constructor
  · rw [hunf]
    exact List.perm_insertionSort _ _
  · rw [hunf]
    haveI : IsTotal Carpool (fun a b => b.departure_time ≤ a.departure_time) :=
      ⟨fun a b => Nat.le_total _ _⟩
    haveI : IsTrans Carpool (fun a b => b.departure_time ≤ a.departure_time) :=
      ⟨fun _ _ _ hab hbc => Nat.le_trans hbc hab⟩
    exact List.sorted_insertionSort _ _

/-- C10.  Reading an existing review increments its `views` counter by
exactly one and persists it: the store afterwards holds the review with
`views + 1` and all other fields unchanged, every other row is untouched,
the store size is unchanged, and the response reflects the incremented
count while every other response field comes from the unchanged row. -/
theorem C10_retrieve_review_frame (db : List Review) (i : Nat) (r0 : Review)
    (hfind : findReview db i = some r0) :
    ∃ db' out, retrieve_review db i = some (db', out) ∧
      db' = saveReview db { r0 with views := r0.views + 1 } ∧
      ({ r0 with views := r0.views + 1 } : Review) ∈ db' ∧
      (∀ x ∈ db, (x.id == i) = false → x ∈ db') ∧
      db'.length = db.length ∧
      out.views = r0.views + 1 ∧
      out.reviewId = r0.id ∧ out.title = r0.title ∧ out.author = r0.author_nickname ∧
      out.content = r0.content ∧ out.region = r0.region ∧ out.place = r0.place ∧
      out.likes = r0.likes ∧ out.createdAt = r0.created_at := by
  have hfind2 : db.find? (fun r => r.id == i) = some r0 := hfind
  have hr0 : r0 ∈ db := List.mem_of_find?_eq_some hfind2
  have hid := @List.find?_some Review (fun r => r.id == i) r0 db hfind2
  have hri : r0.id = i := by simpa using hid
  have hred : retrieve_review db i =
      some (saveReview db { r0 with views := r0.views + 1 },
        { reviewId := r0.id, title := r0.title, author := r0.author_nickname,
          content := r0.content, region := r0.region, place := r0.place,
          likes := r0.likes, views := r0.views + 1, createdAt := r0.created_at }) := by
    simp [retrieve_review, hfind]
  refine ⟨_, _, hred, rfl, ?_, ?_, ?_, rfl, rfl, rfl, rfl, rfl, rfl, rfl, rfl, rfl⟩
  · unfold saveReview
    refine List.mem_map.mpr ⟨r0, hr0, ?_⟩
    have hc : (r0.id == ({ r0 with views := r0.views + 1 } : Review).id) = true := by
      show (r0.id == r0.id) = true
      simp
    rw [if_pos hc]
  · intro x hx hxne
    unfold saveReview
    refine List.mem_map.mpr ⟨x, hx, ?_⟩
    have hc : (x.id == ({ r0 with views := r0.views + 1 } : Review).id) = false := by
      show (x.id == r0.id) = false
      rw [hri]
      exact hxne
    rw [if_neg (by simp [hc])]
  · unfold saveReview
    exact List.length_map _ _

/-- Concrete review rows for the read-endpoint frame property. -/
def reviewC10a : Review :=
  { id := 1, author_username := "u1", author_nickname := "nick1", title := "t1",
    content := "c1", region := "Seoul", place := "p1", likes := 2, views := 9,
    created_at := 100 }

/-- Second concrete review row, untouched by the read. -/
def reviewC10b : Review :=
  { id := 2, author_username := "u2", author_nickname := "nick2", title := "t2",
    content := "c2", region := "Busan", place := "p2", likes := 0, views := 0,
    created_at := 200 }

/-- Witness for C10 at a concrete two-row store. -/
theorem C10_retrieve_review_frame_witness :
    ∃ db' out, retrieve_review [reviewC10a, reviewC10b] 1 = some (db', out) ∧
      out.views = reviewC10a.views + 1 ∧ out.title = reviewC10a.title ∧
      reviewC10b ∈ db' := by
  obtain ⟨db', out, h1, h2, h3, h4, h5, h6, h7, h8, h9, h10, h11, h12, h13, h14⟩ :=
    C10_retrieve_review_frame [reviewC10a, reviewC10b] 1 reviewC10a rfl
  exact ⟨db', out, h1, h6, h8, h4 reviewC10b (by simp) rfl⟩
